import Mathlib

/-!
Verification of the arktos client-go Reflector
(`staging/src/k8s.io/client-go/tools/cache/reflector.go`) and of the kubelet
`podContainerDeletor` (`pkg/kubelet/pod_container_deletor.go`), as a shallow
embedding: the pure parts are translated to Lean functions, the channel selects
are resolved by explicit scheduler inputs, Go panics become `Except.error`
results, and the store trace is recorded as an explicit list of operations.
-/

/-! ## Object and event model -/

/-- A watch/list object as the reflector sees it: the dynamic type reported by
`reflect.TypeOf(event.Object)` (modelled as a type tag), the object identity
used as the store key, and the `metadata.resourceVersion` token. -/
structure KObject where
  typeTag : String
  name : String
  resourceVersion : String
deriving DecidableEq, Repr

/-- `watch.EventType` is a string in Go; the named constants are
`Added`, `Modified`, `Deleted`, `Bookmark`, `Error`, and any other string is
possible on the wire (`other`). -/
inductive EventType
  | added
  | modified
  | deleted
  | bookmark
  | error
  | other (s : String)
deriving DecidableEq, Repr

/-- A `watch.Event`: a type tag plus the carried object. -/
structure WatchEvent where
  type : EventType
  object : KObject
deriving DecidableEq, Repr

/-- The error produced by `apierrs.FromObject(event.Object)` on an `Error`
event; always non-nil in Go, modelled as a wrapper around the event object. -/
structure ApiError where
  obj : KObject
deriving DecidableEq, Repr

/-- A call issued against the external `Store` collaborator
(`Add`/`Update`/`Delete`/`Replace`/`Resync`). The reflector's store traffic is
recorded as a list of these operations. -/
inductive StoreOp
  | add (o : KObject)
  | update (o : KObject)
  | delete (o : KObject)
  | replace (items : List KObject) (resourceVersion : String)
  | resync
deriving DecidableEq, Repr

/-- Modelled from the spec: the external Store collaborator (spec section 6) is a
keyed collection; `Add` and `Update` upsert by object identity. The concrete
store implementation is out of scope of the repository sources. -/
def upsert (store : List KObject) (o : KObject) : List KObject :=
  if store.any (fun x => x.name = o.name) then
    store.map (fun x => if x.name = o.name then o else x)
  else
    store ++ [o]

/-- Modelled from the spec: applying one store operation to the keyed
collection. `Delete` removes the object with the same identity, `Replace`
substitutes the whole content, `Resync` re-emits without changing content
(spec sections 6 and 8); the concrete store implementation is external. -/
def storeApply (store : List KObject) (op : StoreOp) : List KObject :=
  match op with
  | .add o => upsert store o
  | .update o => upsert store o
  | .delete o => store.filter (fun x => ¬ (x.name = o.name))
  | .replace items _ => items
  | .resync => store

/-! ## Event dispatcher (`watchHandlerHelper`, reflector.go lines 471-513) -/

/-- The mutable context of `watchHandler`: the local `resourceVersion` pointer,
the reflector's `lastSyncResourceVersion` field, the event counter, and the
trace of store calls issued so far. -/
structure HandlerState where
  resourceVersion : String
  lastSync : String
  eventCount : Nat
  ops : List StoreOp
deriving DecidableEq, Repr

/-- `watchHandlerHelper` (lines 471-513). In order: an `Error` event returns
`apierrs.FromObject(event.Object)` untouched state; then the expected-type
filter (`e != nil && e != a`) drops mismatching events with a nil error and an
unchanged count; otherwise the store call selected by the event type is issued
(`Bookmark` and unknown types issue none), and then the resource version is
committed to both the caller's pointer and `lastSyncResourceVersion` and the
event count is incremented. Store-call errors are logged, never propagated, so
they do not appear in the result. All modelled objects carry metadata, so the
`meta.Accessor` failure branch (which also drops the event) is not reachable
in the model. -/
def watchHandlerHelper (expectedType : Option String) (event : WatchEvent)
    (st : HandlerState) : Option ApiError × HandlerState :=
  if event.type = EventType.error then
    (some { obj := event.object }, st)
  else if expectedType ≠ none ∧ expectedType ≠ some event.object.typeTag then
    (none, st)
  else
    let newResourceVersion := event.object.resourceVersion
    let newOps : List StoreOp :=
      match event.type with
      | .added => [.add event.object]
      | .modified => [.update event.object]
      | .deleted => [.delete event.object]
      | .bookmark => []
      | .error => []
      | .other _ => []
    (none, { resourceVersion := newResourceVersion,
             lastSync := newResourceVersion,
             eventCount := st.eventCount + 1,
             ops := st.ops ++ newOps })

/-- The `watchHandler` event loop (lines 415-461) restricted to the watch-event
branch: events delivered on `w.ResultChan()` are dispatched in order through
`watchHandlerHelper`; a non-nil helper error is returned immediately. -/
def processWatchEvents (expectedType : Option String) (events : List WatchEvent)
    (st : HandlerState) : Option ApiError × HandlerState :=
  match events with
  | [] => (none, st)
  | e :: rest =>
    match watchHandlerHelper expectedType e st with
    | (some err, st') => (some err, st')
    | (none, st') => processWatchEvents expectedType rest st'

/-- `watchHandler` initialises `eventCount := 0` on entry (line 409). -/
def initialHandlerState (resourceVersion lastSync : String) : HandlerState :=
  { resourceVersion := resourceVersion, lastSync := lastSync,
    eventCount := 0, ops := [] }

/-- The possible returns of `watchHandler` for a run that is driven only by the
watch event channel (no stop, reset, or resync-error delivery). -/
inductive WatchHandlerResult
  | apiError (e : ApiError)
  | veryShortWatch
  | ok
deriving DecidableEq, Repr

/-- `watchHandler` (lines 406-469) for a run in which the event channel
delivers `events` and then closes after `watchDurationMs` milliseconds: the
loop dispatches the events, and after `break loop` the close is classified as
a "very short watch" error exactly when the duration was under one second and
the event count is zero (lines 463-468); otherwise the return is nil. -/
def watchHandlerOnClose (expectedType : Option String) (events : List WatchEvent)
    (resourceVersion lastSync : String) (watchDurationMs : Nat) :
    WatchHandlerResult × HandlerState :=
  match processWatchEvents expectedType events (initialHandlerState resourceVersion lastSync) with
  | (some e, st) => (.apiError e, st)
  | (none, st) =>
    if watchDurationMs < 1000 ∧ st.eventCount = 0 then (.veryShortWatch, st)
    else (.ok, st)

/-! ## List phase (`syncWith`, lines 397-404, and the Phase B commit) -/

/-- `syncWith` (lines 397-404): wraps the listed items and issues a single
`store.Replace(found, resourceVersion)` call. -/
def syncWith (items : List KObject) (resourceVersion : String) : StoreOp :=
  .replace items resourceVersion

/-- The observable outcome of a successful list followed by a watch. -/
structure ListAndWatchOutcome where
  err : Option ApiError
  store : List KObject
  resourceVersion : String
  lastSync : String
deriving DecidableEq, Repr

/-- The `ListAndWatch` success path (lines 236-293 then 415-461): Phase B sets
`resourceVersion` from the list's terminal version (line 277), calls
`syncWith` (line 284) and `setLastSyncResourceVersion` (line 288); the watch
then dispatches `events` through `watchHandlerHelper`. The store operations
issued are folded into the (spec-modelled) keyed store, starting from empty. -/
def listThenWatch (expectedType : Option String) (listItems : List KObject)
    (listRV : String) (events : List WatchEvent) : ListAndWatchOutcome :=
  let store0 := storeApply [] (syncWith listItems listRV)
  let res := processWatchEvents expectedType events
    (initialHandlerState listRV listRV)
  { err := res.1,
    store := res.2.ops.foldl storeApply store0,
    resourceVersion := res.2.resourceVersion,
    lastSync := res.2.lastSync }

/-! ## Reflector state, construction, and shard bounds
(reflector.go lines 48-140, 533-571) -/

/-- The `Reflector` fields the verified claims depend on. `expectedType` is
`reflect.TypeOf(expectedType)`: `none` models a nil type (no filtering).
`resetMode` models `resetCh != nil`. Durations are in milliseconds. -/
structure ReflectorState where
  name : String
  expectedType : Option String
  ownerKind : String
  resetMode : Bool
  bounds : List Int
  lastSyncResourceVersion : String
  resyncPeriodMs : Nat
  periodMs : Nat
deriving DecidableEq, Repr

/-- `NewNamedReflector` (lines 127-140): `period` is one second, `bounds` is
the sentinel `[-1, -1]`, no reset channel, empty owner kind. -/
def NewNamedReflector (name : String) (expectedType : Option String)
    (resyncPeriodMs : Nat) : ReflectorState :=
  { name := name, expectedType := expectedType, ownerKind := "",
    resetMode := false, bounds := [-1, -1], lastSyncResourceVersion := "",
    resyncPeriodMs := resyncPeriodMs, periodMs := 1000 }

/-- `NewReflectorWithReset` (lines 119-124): `NewNamedReflector` plus the reset
channel and the owner kind. -/
def NewReflectorWithReset (name : String) (expectedType : Option String)
    (resyncPeriodMs : Nat) (ownerKind : String) : ReflectorState :=
  { NewNamedReflector name expectedType resyncPeriodMs with
      resetMode := true, ownerKind := ownerKind }

/-- The payload carried by a value delivered on the reset channel; the channel
element type is `interface{}`, so any of these can arrive. -/
inductive ResetSignal
  | int64Slice (xs : List Int)
  | nilSignal
  | otherType (desc : String)
deriving DecidableEq, Repr

/-- The comma-ok type assertion `signal.([]int64)` in `setBounds` (line 543):
a payload that is not a `[]int64` yields the nil (empty) slice without
panicking. -/
def signalAssert : ResetSignal → List Int
  | .int64Slice xs => xs
  | _ => []

/-- `setBounds` (lines 542-546): asserts the payload to `[]int64`, then the
`klog.Infof` argument list evaluates `r.bounds[0]`, `r.bounds[1]`,
`newBounds[0]`, `newBounds[1]` — indexing a slice of length below two is a Go
runtime panic, modelled as `Except.error` — and finally replaces `r.bounds`
wholesale with the asserted slice. -/
def setBounds (r : ReflectorState) (signal : ResetSignal) :
    Except String ReflectorState :=
  if r.bounds.length < 2 ∨ (signalAssert signal).length < 2 then
    .error "runtime error: index out of range"
  else
    .ok { r with bounds := signalAssert signal }

/-- `isInitBounds` (lines 548-554): the sentinel `[-1, -1]` means the bounds
are still uninitialized. -/
def isInitBounds (r : ReflectorState) : Bool :=
  if r.bounds.getD 0 0 = -1 ∧ r.bounds.getD 1 0 = -1 then true else false

/-- The spec's bounds invariant (section 3): the sentinel `[-1, -1]`, or a
two-element pair with `lo ≤ hi`. -/
def boundsInvB : List Int → Bool
  | [lo, hi] => (lo = -1 ∧ hi = -1) ∨ lo ≤ hi
  | _ => false

/-- `createHashkeyListOptions` (lines 556-571): the lower-bound operator is
`gte` when `bounds[0] == 0` and `gt` otherwise; a non-empty `ownerKind` scopes
the two hashkey predicates to `metadata.ownerReferences.hashkey.<ownerKind>`,
otherwise they target `metadata.hashkey`. Go renders `%v`/`%+v` of an int64 as
its decimal digits, matching `toString` on `Int`. Only the `FieldSelector`
field of the returned options is populated, so the model returns the string. -/
def createHashkeyListOptions (r : ReflectorState) : String :=
  let operator := if r.bounds.getD 0 0 = 0 then "gte" else "gt"
  if r.ownerKind ≠ "" then
    "metadata.ownerReferences.hashkey." ++ r.ownerKind ++ "=" ++ operator ++ ":"
      ++ toString (r.bounds.getD 0 0)
      ++ ",metadata.ownerReferences.hashkey." ++ r.ownerKind ++ "=lte:"
      ++ toString (r.bounds.getD 1 0)
  else
    "metadata.hashkey=" ++ operator ++ ":" ++ toString (r.bounds.getD 0 0)
      ++ ",metadata.hashkey=lte:" ++ toString (r.bounds.getD 1 0)

/-- `appendFieldSelector` (lines 533-540): only the `FieldSelector` strings
take part; a target whose field selector has length zero (i.e. is the empty
string) is replaced outright, otherwise the two selectors are joined with a
single comma. -/
def appendFieldSelector (target fieldSelector : String) : String :=
  if target = "" then fieldSelector
  else target ++ "," ++ fieldSelector

/-! ## Watch-open error classification (lines 349-372) -/

/-- The shape of a Go error as inspected by the watch-open error handler:
`*url.Error` and `*net.OpError` wrap an inner error, `syscall.Errno` carries a
number, and everything else (including `io.EOF` and `io.ErrUnexpectedEOF`,
which only affect log verbosity) falls through the type assertions. -/
inductive GoErr
  | eof
  | unexpectedEOF
  | urlError (err : GoErr)
  | opError (err : GoErr)
  | errno (n : Nat)
  | otherErr (msg : String)
deriving DecidableEq, Repr

/-- `syscall.ECONNREFUSED` on Linux. -/
def ECONNREFUSED : Nat := 111

/-- What the watch loop does with a non-nil error from
`listerWatcher.Watch(options)`: sleep and re-enter the watch loop without
re-listing (`time.Sleep(time.Second); continue`, lines 366-367), or
`return nil` from `ListAndWatch` (line 371) so the outer loop re-lists. -/
inductive WatchOpenAction
  | sleepAndRetryWatch (sleepMs : Nat)
  | returnNil
deriving DecidableEq, Repr

/-- The watch-open error handler (lines 350-372): after logging by error kind,
the nested comma-ok assertions `err.(*url.Error)`, `urlError.Err.(*net.OpError)`,
`opError.Err.(syscall.Errno)` and the comparison with `syscall.ECONNREFUSED`
select the sleep-and-retry branch; every other error reaches `return nil`. -/
def watchOpenErrorHandler (e : GoErr) : WatchOpenAction :=
  match e with
  | .urlError (.opError (.errno n)) =>
    if n = ECONNREFUSED then .sleepAndRetryWatch 1000 else .returnNil
  | _ => .returnNil

/-! ## Stop-closure behaviour (Run lines 146-168, ListAndWatch lines 201-395)

The suspension points of `ListAndWatch` are its channel selects. The model
below resolves each select under the prompt-stop scheduling discipline the
spec assumes (section 5): once the stop channel is closed, every select that
lists the stop case takes it at its next scheduling point. `stopResume` traces
the remainder of the execution from each suspension point under that
discipline, recording the return value, the goroutines spawned after the stop
closure, and the store operations issued after the stop closure. -/

/-- The named error values of reflector.go (lines 170-182) together with the
wrapped failures `ListAndWatch` can return. -/
inductive LWError
  | listFailed
  | stopRequested
  | resetRequested
  | resetChannelClosed
  | veryShortWatchErr
  | watchStreamError
  | resyncFailed
deriving DecidableEq, Repr

/-- The suspension points of `ListAndWatch` (spec section 5): the bounds
acquisition select (lines 212-221), the non-blocking bounds poll
(lines 223-228), the list-helper wait (lines 262-268), the watch-loop top
poll (lines 327-331), and the `watchHandler` select (lines 417-460). -/
inductive Phase
  | boundsAcquire
  | boundsPoll
  | listWait
  | watchLoopTop
  | watchSelect
deriving DecidableEq, Repr

/-- What an execution does after the stop channel closes. -/
structure StopTrace where
  result : Option LWError
  goroutinesSpawnedAfterStop : Nat
  storeOpsAfterStop : List StoreOp
deriving DecidableEq, Repr

/-- The `watchHandler` selects return `errorStopRequested` on the stop case
(lines 419-420 and 445-446). -/
def watchSelectOnStop : LWError := .stopRequested

/-- `ListAndWatch`'s treatment of a non-nil `watchHandler` error
(lines 374-393): `errorResetRequested` is propagated upward after the
non-blocking cancel send (line 382); every other error, including
`errorStopRequested`, falls through to `return nil` (line 392). -/
def handleWatchHandlerError (e : LWError) : Option LWError :=
  if e = .resetRequested then some .resetRequested else none

/-- The continuation of `ListAndWatch` from each suspension point once the
stop channel is closed, under prompt-stop scheduling.

* `boundsAcquire` (lines 212-214) and `boundsPoll` (lines 223-225): the stop
  case returns nil before anything is spawned or written.
* `listWait` (lines 262-264): the stop case makes the Phase B closure return
  nil, so `err` at line 291 is nil and `ListAndWatch` falls through to
  line 299, spawns the resync worker goroutine, and then the watch-loop top
  select (lines 327-329) takes the stop case and returns nil; `syncWith` was
  never reached, so no store operation is issued.
* `watchLoopTop` (lines 327-329): returns nil directly.
* `watchSelect`: `watchHandler` returns `errorStopRequested` and
  lines 374-393 turn it into a nil return; no store operation is issued after
  the stop case is taken. -/
def stopResume : Phase → StopTrace
  | .boundsAcquire => { result := none, goroutinesSpawnedAfterStop := 0, storeOpsAfterStop := [] }
  | .boundsPoll => { result := none, goroutinesSpawnedAfterStop := 0, storeOpsAfterStop := [] }
  | .listWait => { result := none, goroutinesSpawnedAfterStop := 1, storeOpsAfterStop := [] }
  | .watchLoopTop => { result := none, goroutinesSpawnedAfterStop := 0, storeOpsAfterStop := [] }
  | .watchSelect =>
    { result := handleWatchHandlerError watchSelectOnStop,
      goroutinesSpawnedAfterStop := 0, storeOpsAfterStop := [] }

/-- The cases of the resync worker's select (lines 305-311). -/
inductive WorkerBranch
  | timerFired
  | stop
  | cancel
deriving DecidableEq, Repr

/-- Outcome of one resync-worker iteration: either the goroutine returned, or
it looped to the next select; in both cases the number of `store.Resync()`
calls made during the iteration is recorded. -/
inductive WorkerStep
  | exited (resyncCalls : Nat)
  | looped (resyncCalls : Nat)
deriving DecidableEq, Repr

/-- One iteration of the resync worker goroutine (lines 304-321):
the stop and cancel cases return immediately; on a timer fire the worker
resyncs when `ShouldResync` is nil or returns true (`shouldResync = none`
models a nil predicate), exits on a resync error, and loops otherwise. -/
def resyncWorkerStep (shouldResync : Option Bool) (resyncOk : Bool) :
    WorkerBranch → WorkerStep
  | .stop => .exited 0
  | .cancel => .exited 0
  | .timerFired =>
    if shouldResync.getD true then
      if resyncOk then .looped 1 else .exited 1
    else .looped 0

/-- Run's reset-mode body (lines 156-165) breaks out of its `for` loop only
when `ListAndWatch` returns an error other than `errorResetRequested`; a nil
return falls through the `if` and the loop continues. -/
def runResetBreaks : Option LWError → Bool
  | none => false
  | some e => decide (e ≠ .resetRequested)

/-- Whether Run's reset-mode `for` loop has exited within `n` calls of
`ListAndWatch` when every call returns `res`. -/
def runResetExitsWithin (res : Option LWError) : Nat → Bool
  | 0 => false
  | n + 1 => runResetBreaks res || runResetExitsWithin res n

/-! ## Pod container deletor (pkg/kubelet/pod_container_deletor.go) -/

/-- `kubecontainer.ContainerState`; only `exited` is inspected. -/
inductive ContainerState
  | created
  | running
  | exited
  | unknown
deriving DecidableEq, Repr

/-- `kubecontainer.ContainerStatus`, restricted to the fields the deletor
reads. `id` stands for the container identifier (both `ID.ID` matched against
`filterContainerID` and the string passed to `RemoveContainer`), `createdAt`
is the creation time as a comparable integer. -/
structure ContainerStatus where
  id : String
  name : String
  state : ContainerState
  createdAt : Int
deriving DecidableEq, Repr

/-- `kubecontainer.PodStatus`, restricted to the container status list. -/
structure PodStatus where
  containerStatuses : List ContainerStatus
deriving DecidableEq, Repr

/-- `kubecontainer.Runtime`, the type of `newPodContainerDeletor`'s ignored
first parameter. -/
structure KubeRuntime where
  tag : String
deriving DecidableEq, Repr

/-- `internalapi.RuntimeService`, the type of the `runtime` field; the field
holds `none` for a nil interface. -/
structure RuntimeService where
  tag : String
deriving DecidableEq, Repr

/-- `podContainerDeletor` (lines 35-38). `containersToKeep` is a Go `int`. -/
structure PodContainerDeletor where
  containersToKeep : Int
  runtime : Option RuntimeService
deriving DecidableEq, Repr

/-- `newPodContainerDeletor` (lines 44-49): stores the supplied
`containersToKeep` but hard-codes `runtime: nil`, ignoring the `runtime`
parameter entirely. -/
def newPodContainerDeletor (runtime : KubeRuntime) (containersToKeep : Int) :
    PodContainerDeletor :=
  { containersToKeep := containersToKeep, runtime := none }

/-- `setRuntime` (lines 102-104). -/
def setRuntime (p : PodContainerDeletor) (runtimeService : RuntimeService) :
    PodContainerDeletor :=
  { p with runtime := some runtimeService }

/-- The panics `deleteContainersInPod` can hit, modelled as errors. -/
inductive DeleteError
  | sliceOutOfRange
  | nilRuntimeDereference
deriving DecidableEq, Repr

/-- Insert one status into a list sorted by descending creation time, the
order `sort.Sort(containerStatusbyCreatedList)` establishes via
`Less i j = a[i].CreatedAt.After(a[j].CreatedAt)` (lines 40-42); ties keep an
unspecified order in Go, and this insertion sort realises one such order. -/
def insertByCreatedDesc (c : ContainerStatus) :
    List ContainerStatus → List ContainerStatus
  | [] => [c]
  | x :: xs =>
    if x.createdAt < c.createdAt then c :: x :: xs
    else x :: insertByCreatedDesc c xs

/-- Sort container statuses by descending creation time (lines 40-42, 85). -/
def sortByCreatedDesc : List ContainerStatus → List ContainerStatus
  | [] => []
  | x :: xs => insertByCreatedDesc x (sortByCreatedDesc xs)

/-- The inner `matchedContainer` closure (lines 54-64): nil for an empty
filter id, else the first status whose `ID.ID` equals the filter id. -/
def matchedContainer (filterContainerId : String) (podStatus : PodStatus) :
    Option ContainerStatus :=
  if filterContainerId = "" then none
  else podStatus.containerStatuses.find? (fun cs => cs.id = filterContainerId)

/-- `getContainersToDeleteInPod` (lines 53-87): with a non-empty filter id and
no matching container the result is empty; otherwise the candidates are the
exited statuses whose name matches the matched container (all exited statuses
when there is none), and when there are more candidates than
`containersToKeep` the sorted candidates past the first `containersToKeep`
are returned. `candidates[containersToKeep:]` with a negative index is a Go
slice-bounds panic, modelled as an error. -/
def getContainersToDeleteInPod (filterContainerID : String)
    (podStatus : PodStatus) (containersToKeep : Int) :
    Except DeleteError (List ContainerStatus) :=
  let matched := matchedContainer filterContainerID podStatus
  if filterContainerID ≠ "" ∧ matched = none then .ok []
  else
    let candidates := podStatus.containerStatuses.filter (fun cs =>
      decide (cs.state = ContainerState.exited) &&
        (match matched with
         | none => true
         | some m => decide (m.name = cs.name)))
    if (candidates.length : Int) ≤ containersToKeep then .ok []
    else if containersToKeep < 0 then .error .sliceOutOfRange
    else .ok ((sortByCreatedDesc candidates).drop containersToKeep.toNat)

/-- `deleteContainersInPod` (lines 90-100): `removeAll` forces
`containersToKeep = 0` and an empty filter id; then
`p.runtime.RemoveContainer(candidate.ID.String())` is called for every
selected candidate — when `p.runtime` is the nil interface, the first such
call dereferences nil and panics, modelled as `nilRuntimeDereference`. On
success the result lists the identifiers passed to `RemoveContainer`. -/
def deleteContainersInPod (p : PodContainerDeletor) (filterContainerID : String)
    (podStatus : PodStatus) (removeAll : Bool) :
    Except DeleteError (List String) :=
  match getContainersToDeleteInPod (if removeAll then "" else filterContainerID)
      podStatus (if removeAll then 0 else p.containersToKeep) with
  | .error e => .error e
  | .ok [] => .ok []
  | .ok (c :: cs) =>
    match p.runtime with
    | none => .error .nilRuntimeDereference
    | some _ => .ok ((c :: cs).map (fun x => x.id))

/-! ## Concrete scenario values -/

/-- Object A at resource version 1 (spec section 8, scenario 1). -/
def objA1 : KObject := { typeTag := "Pod", name := "A", resourceVersion := "1" }

/-- Object B at resource version 2. -/
def objB2 : KObject := { typeTag := "Pod", name := "B", resourceVersion := "2" }

/-- Object B at resource version 6. -/
def objB6 : KObject := { typeTag := "Pod", name := "B", resourceVersion := "6" }

/-- Object C at resource version 7. -/
def objC7 : KObject := { typeTag := "Pod", name := "C", resourceVersion := "7" }

/-- Object A at resource version 8 (the deletion tombstone payload). -/
def objA8 : KObject := { typeTag := "Pod", name := "A", resourceVersion := "8" }

/-- The cold-start watch stream: Modified B@6, Added C@7, Deleted A@8. -/
def coldStartEvents : List WatchEvent :=
  [ { type := EventType.modified, object := objB6 },
    { type := EventType.added, object := objC7 },
    { type := EventType.deleted, object := objA8 } ]

/-- A status-shaped object carried by an `Error` watch event; its dynamic type
differs from every expected resource type. -/
def statusObj : KObject := { typeTag := "Status", name := "s", resourceVersion := "9" }

/-- An `Error`-type watch event carrying the status object. -/
def errEvent : WatchEvent := { type := EventType.error, object := statusObj }

/-- An object whose dynamic type ("Node") differs from an expected "Pod". -/
def nodeObj : KObject := { typeTag := "Node", name := "n1", resourceVersion := "3" }

/-- One exited container status. -/
def exitedC : ContainerStatus :=
  { id := "c1", name := "main", state := ContainerState.exited, createdAt := 10 }

/-- A pod status holding exactly the one exited container. -/
def onePod : PodStatus := { containerStatuses := [exitedC] }

/-- Decidable equality for `Except` results, used to evaluate the model on
concrete inputs. -/
instance {ε α : Type} [DecidableEq ε] [DecidableEq α] :
    DecidableEq (Except ε α) := fun a b =>
  match a, b with
  | .error e₁, .error e₂ =>
    if h : e₁ = e₂ then isTrue (by rw [h])
    else isFalse (fun hc => h (by injection hc))
  | .error _, .ok _ => isFalse (fun hc => Except.noConfusion hc)
  | .ok _, .error _ => isFalse (fun hc => Except.noConfusion hc)
  | .ok a₁, .ok a₂ =>
    if h : a₁ = a₂ then isTrue (by rw [h])
    else isFalse (fun hc => h (by injection hc))

/-! ## Theorems -/

/-- Claim C1: cold-start end-to-end result — starting from an empty store, a
list returning A@1 and B@2 at terminal version "5" followed by the watch
events Modified B@6, Added C@7, Deleted A@8 leaves the store holding exactly
B@6 and C@7 and the last-sync resource version equal to "8" (and no error). -/
theorem c1_cold_start_end_to_end :
    listThenWatch none [objA1, objB2] "5" coldStartEvents =
      { err := none, store := [objB6, objC7],
        resourceVersion := "8", lastSync := "8" } := by
  decide

/-- Claim C2 counterexample: the `Error`-event branch of `watchHandlerHelper`
precedes the expected-type filter, so an `Error` event whose object type
("Status") differs from the non-nil expected type ("Pod") is answered with a
non-nil error — refuting, at this concrete input, the claim that every
type-mismatched event returns no error to the caller. -/
theorem c2_error_event_counterexample :
    (some "Pod" ≠ (none : Option String) ∧
      some "Pod" ≠ some errEvent.object.typeTag) ∧
    (watchHandlerHelper (some "Pod") errEvent (initialHandlerState "5" "5")).1 ≠ none := by
  decide

/-- Claim C2 (amended): for every watch event whose type is not `Error` and
whose object's dynamic type differs from a non-nil expectedType,
`watchHandlerHelper` performs no store mutation, returns no error, and leaves
the event count, the resource version, and the whole handler state unchanged;
the mismatch is only logged. -/
theorem c2_type_filter_amended (t : String) (ev : WatchEvent) (st : HandlerState)
    (hty : ev.type ≠ EventType.error) (hmis : ev.object.typeTag ≠ t) :
    watchHandlerHelper (some t) ev st = (none, st) := by
  have hcond : (some t ≠ (none : Option String) ∧
      some t ≠ some ev.object.typeTag) :=
    ⟨fun hc => Option.noConfusion hc, fun hc => hmis (Option.some.inj hc).symm⟩
  unfold watchHandlerHelper
  rw [if_neg hty, if_pos hcond]

/-- Claim C2 witness: a Modified event for a "Node" object under expected type
"Pod" is dropped without error or state change. -/
theorem c2_type_filter_amended_witness :
    watchHandlerHelper (some "Pod") { type := EventType.modified, object := nodeObj }
      (initialHandlerState "5" "5") = (none, initialHandlerState "5" "5") :=
  c2_type_filter_amended "Pod" { type := EventType.modified, object := nodeObj }
    (initialHandlerState "5" "5") (by decide) (by decide)

/-- Run's reset-mode loop never exits when every `ListAndWatch` call returns
nil. -/
theorem runResetExitsWithin_none (n : Nat) :
    runResetExitsWithin none n = false := by
  induction n with
  | zero => rfl
  | succ k ih => simp [runResetExitsWithin, runResetBreaks, ih]

/-- Claim C3: once the stop channel is closed, every suspension point of
`ListAndWatch` leads to a nil return (first conjunct) — but in reset mode
Run's inner `for` loop breaks only on a non-nil, non-reset error, so the nil
returns make it call `ListAndWatch` forever and `Run` never terminates
(second conjunct: the loop has not exited after any number of calls). This
contradicts Run's own doc comment ("Run will exit when stopCh is closed") and
the claim that Run terminates in every mode. -/
theorem c3_stop_closed_reset_run_never_exits (p : Phase) (n : Nat) :
    (stopResume p).result = none ∧
    runResetExitsWithin (stopResume p).result n = false := by
  have hres : (stopResume p).result = none := by cases p <;> rfl
  rw [hres]
  exact ⟨rfl, runResetExitsWithin_none n⟩

/-- Claim C4 counterexample: when the stop channel closes while `ListAndWatch`
is blocked on the list helper, the Phase B closure returns nil, so control
falls through to line 299 and the resync worker goroutine is spawned after
the stop closure — refuting "returns without spawning any new goroutine". The
return value is still nil and no store operation is issued. -/
theorem c4_resync_spawn_counterexample :
    (stopResume Phase.listWait).goroutinesSpawnedAfterStop ≠ 0 ∧
    (stopResume Phase.listWait).result = none ∧
    (stopResume Phase.listWait).storeOpsAfterStop = [] := by
  decide

/-- Claim C4 (amended): for every closure of the stop channel while
`ListAndWatch` is blocked at a suspension point, `ListAndWatch` returns nil
without mutating the store; no goroutine is spawned after the stop closure
except in the list-wait case, where the resync worker is still spawned once —
and that worker's select returns at its next scheduling point without calling
`store.Resync`, so no goroutine outlives the return. -/
theorem c4_stop_spawn_amended (p : Phase) (shouldResync : Option Bool)
    (resyncOk : Bool) :
    (stopResume p).result = none ∧
    (stopResume p).storeOpsAfterStop = [] ∧
    (stopResume p).goroutinesSpawnedAfterStop
      = (if p = Phase.listWait then 1 else 0) ∧
    resyncWorkerStep shouldResync resyncOk WorkerBranch.stop = WorkerStep.exited 0 := by
  cases p <;> exact ⟨rfl, rfl, by decide, rfl⟩

/-- Claim C5: when the watch event channel closes (the loop ends by
`break loop` rather than an in-loop return), `watchHandler` returns the
distinguished "very short watch" error if and only if the total duration was
strictly under one second and the event count is zero; in every other
channel-close case it returns nil. -/
theorem c5_very_short_watch_iff (expectedType : Option String)
    (events : List WatchEvent) (rv ls : String) (d : Nat)
    (h : (processWatchEvents expectedType events (initialHandlerState rv ls)).1 = none) :
    ((watchHandlerOnClose expectedType events rv ls d).1
        = WatchHandlerResult.veryShortWatch ↔
      d < 1000 ∧ (watchHandlerOnClose expectedType events rv ls d).2.eventCount = 0) ∧
    ((watchHandlerOnClose expectedType events rv ls d).1
        ≠ WatchHandlerResult.veryShortWatch →
      (watchHandlerOnClose expectedType events rv ls d).1 = WatchHandlerResult.ok) := by
  rcases hr : processWatchEvents expectedType events (initialHandlerState rv ls)
    with ⟨err, st⟩
  rw [hr] at h
  have herr : err = none := h
  subst herr
  simp only [watchHandlerOnClose, hr]
  by_cases hc : d < 1000 ∧ st.eventCount = 0
  · rw [if_pos hc]
    exact ⟨⟨fun _ => hc, fun _ => rfl⟩, fun hne => absurd rfl hne⟩
  · rw [if_neg hc]
    exact ⟨⟨fun habs => WatchHandlerResult.noConfusion habs,
            fun hrhs => absurd hrhs hc⟩,
           fun _ => rfl⟩

/-- Claim C5 witness: a 400 ms watch with no events is classified as a very
short watch (the iff instantiated at a concrete closing run). -/
theorem c5_very_short_watch_iff_witness :
    ((watchHandlerOnClose none [] "0" "0" 400).1
        = WatchHandlerResult.veryShortWatch ↔
      400 < 1000 ∧ (watchHandlerOnClose none [] "0" "0" 400).2.eventCount = 0) ∧
    ((watchHandlerOnClose none [] "0" "0" 400).1
        ≠ WatchHandlerResult.veryShortWatch →
      (watchHandlerOnClose none [] "0" "0" 400).1 = WatchHandlerResult.ok) :=
  c5_very_short_watch_iff none [] "0" "0" 400 rfl

/-- Claim C6: for every error returned by `listerWatcher.Watch`, the watch
loop sleeps one second and retries the watch (without re-listing and without
returning) exactly when the error is `*url.Error` wrapping `*net.OpError`
wrapping `syscall.Errno` equal to `ECONNREFUSED`; every other watch-open
error makes `ListAndWatch` return nil, so the outer loop re-lists. -/
theorem c6_watch_open_error_classification (e : GoErr) :
    watchOpenErrorHandler e =
      (if e = GoErr.urlError (GoErr.opError (GoErr.errno ECONNREFUSED))
       then WatchOpenAction.sleepAndRetryWatch 1000
       else WatchOpenAction.returnNil) := by
  cases e with
  | eof => decide
  | unexpectedEOF => decide
  | errno n => simp [watchOpenErrorHandler]
  | otherErr m => simp [watchOpenErrorHandler]
  | opError inner => simp [watchOpenErrorHandler]
  | urlError inner =>
    cases inner with
    | eof => decide
    | unexpectedEOF => decide
    | errno n => simp [watchOpenErrorHandler]
    | otherErr m => simp [watchOpenErrorHandler]
    | urlError x => simp [watchOpenErrorHandler]
    | opError inner2 =>
      cases inner2 with
      | eof => decide
      | unexpectedEOF => decide
      | otherErr m => simp [watchOpenErrorHandler]
      | urlError x => simp [watchOpenErrorHandler]
      | opError x => simp [watchOpenErrorHandler]
      | errno n =>
        by_cases hn : n = ECONNREFUSED
        · subst hn; decide
        · simp [watchOpenErrorHandler, hn]

/-- Claim C7: for every bounds pair `[lo, hi]`, the rendered field selector
uses operator `gte` exactly when `lo = 0` and `gt` otherwise; with empty
`ownerKind` it is the `metadata.hashkey` form and with non-empty `ownerKind`
the `metadata.ownerReferences.hashkey.<ownerKind>` form; and appending it to
an empty existing field selector replaces the selector outright while a
non-empty existing selector is joined with a single comma. -/
theorem c7_field_selector_rendering (lo hi : Int) (ownerKind existing : String) :
    createHashkeyListOptions
        { NewReflectorWithReset "r" none 0 ownerKind with bounds := [lo, hi] } =
      (if ownerKind = "" then
        "metadata.hashkey=" ++ (if lo = 0 then "gte" else "gt") ++ ":"
          ++ toString lo ++ ",metadata.hashkey=lte:" ++ toString hi
       else
        "metadata.ownerReferences.hashkey." ++ ownerKind ++ "="
          ++ (if lo = 0 then "gte" else "gt") ++ ":" ++ toString lo
          ++ ",metadata.ownerReferences.hashkey." ++ ownerKind ++ "=lte:"
          ++ toString hi) ∧
    appendFieldSelector ""
        (createHashkeyListOptions
          { NewReflectorWithReset "r" none 0 ownerKind with bounds := [lo, hi] })
      = createHashkeyListOptions
          { NewReflectorWithReset "r" none 0 ownerKind with bounds := [lo, hi] } ∧
    (existing ≠ "" →
      appendFieldSelector existing
          (createHashkeyListOptions
            { NewReflectorWithReset "r" none 0 ownerKind with bounds := [lo, hi] })
        = existing ++ ","
          ++ createHashkeyListOptions
              { NewReflectorWithReset "r" none 0 ownerKind with bounds := [lo, hi] }) := by
  refine ⟨?_, ?_, ?_⟩
  · by_cases ho : ownerKind = "" <;>
      simp [createHashkeyListOptions, NewReflectorWithReset, NewNamedReflector, ho]
  · simp [appendFieldSelector]
  · intro hne
    simp [appendFieldSelector, hne]

/-- Claim C7 witness: the rendering and appending equalities at the concrete
bounds `[0, 1000]`, owner kind `"Pod"`, and existing selector `"spec.x=1"`. -/
theorem c7_field_selector_rendering_witness :
    createHashkeyListOptions
        { NewReflectorWithReset "r" none 0 "Pod" with bounds := [0, 1000] } =
      "metadata.ownerReferences.hashkey.Pod=gte:0,metadata.ownerReferences.hashkey.Pod=lte:1000" ∧
    appendFieldSelector "spec.x=1"
        (createHashkeyListOptions
          { NewReflectorWithReset "r" none 0 "Pod" with bounds := [0, 1000] })
      = "spec.x=1,"
        ++ createHashkeyListOptions
            { NewReflectorWithReset "r" none 0 "Pod" with bounds := [0, 1000] } := by
  obtain ⟨h1, _, h3⟩ := c7_field_selector_rendering 0 1000 "Pod" "spec.x=1"
  refine ⟨?_, h3 (by decide)⟩
  rw [h1]
  decide

/-- Claim C8 counterexample: `setBounds` replaces the bounds wholesale with no
`lo ≤ hi` check, so delivering the signal `[5, 3]` to a freshly constructed
reflector succeeds and leaves a bounds value that is neither the sentinel nor
a pair with `lo ≤ hi` — refuting "every operation that writes bounds
preserves this invariant" as stated. -/
theorem c8_bounds_counterexample :
    setBounds (NewNamedReflector "r" none 0) (ResetSignal.int64Slice [5, 3])
      = .ok { NewNamedReflector "r" none 0 with bounds := [5, 3] } ∧
    boundsInvB [5, 3] = false := by
  decide

/-- A bounds value satisfying the invariant is a two-element list. -/
theorem boundsInvB_length (bs : List Int) (h : boundsInvB bs = true) :
    bs.length = 2 := by
  cases bs with
  | nil => exact Bool.noConfusion h
  | cons a t =>
    cases t with
    | nil => exact Bool.noConfusion h
    | cons b t2 =>
      cases t2 with
      | nil => rfl
      | cons c t3 => exact Bool.noConfusion h

/-- Claim C8 (amended): both constructors establish the bounds invariant (the
sentinel `[-1, -1]`), and `setBounds` preserves it for every delivered signal
whose payload is a two-element int64 slice `[lo, hi]` with `lo ≤ hi`; a pair
payload with `lo > hi` overwrites the bounds wholesale and breaks the
invariant (see the counterexample). -/
theorem c8_bounds_invariant_amended :
    (∀ (n : String) (et : Option String) (rp : Nat) (okind : String),
      boundsInvB (NewNamedReflector n et rp).bounds = true ∧
      boundsInvB (NewReflectorWithReset n et rp okind).bounds = true) ∧
    (∀ (r : ReflectorState) (lo hi : Int),
      boundsInvB r.bounds = true → lo ≤ hi →
      Except.map (fun x => boundsInvB x.bounds)
          (setBounds r (ResetSignal.int64Slice [lo, hi]))
        = .ok true) := by
  constructor
  · intro n et rp okind
    exact ⟨rfl, rfl⟩
  · intro r lo hi hinv hle
    have hlen : r.bounds.length = 2 := boundsInvB_length r.bounds hinv
    have hcond : ¬(r.bounds.length < 2 ∨
        (signalAssert (ResetSignal.int64Slice [lo, hi])).length < 2) := by
      simp [signalAssert, hlen]
    unfold setBounds
    rw [if_neg hcond]
    simp [Except.map, signalAssert, boundsInvB]
    exact Or.inr hle

/-- Claim C8 witness: the amended preservation at a fresh reflector and the
concrete in-order signal `[3, 9]`. -/
theorem c8_bounds_invariant_amended_witness :
    (boundsInvB (NewNamedReflector "w" none 0).bounds = true ∧
     boundsInvB (NewReflectorWithReset "w" none 0 "Pod").bounds = true) ∧
    Except.map (fun x => boundsInvB x.bounds)
        (setBounds (NewNamedReflector "w" none 0) (ResetSignal.int64Slice [3, 9]))
      = .ok true :=
  ⟨c8_bounds_invariant_amended.1 "w" none 0 "Pod",
   c8_bounds_invariant_amended.2 (NewNamedReflector "w" none 0) 3 9
     (by decide) (by decide)⟩

/-- Claim C9: `newPodContainerDeletor` stores nil in the runtime field for
every runtime argument, stores `containersToKeep` as given, and a
`deleteContainersInPod` invoked before `setRuntime` dereferences nil whenever
`getContainersToDeleteInPod` selects at least one candidate container. -/
theorem c9_deletor_nil_runtime (rt : KubeRuntime) (k : Int) (fid : String)
    (ps : PodStatus) (ra : Bool) (cands : List ContainerStatus) :
    (newPodContainerDeletor rt k).runtime = none ∧
    (newPodContainerDeletor rt k).containersToKeep = k ∧
    (getContainersToDeleteInPod (if ra then "" else fid) ps
        (if ra then 0 else k) = .ok cands →
      cands ≠ [] →
      deleteContainersInPod (newPodContainerDeletor rt k) fid ps ra
        = .error DeleteError.nilRuntimeDereference) := by
  refine ⟨rfl, rfl, ?_⟩
  intro hget hne
  unfold deleteContainersInPod
  simp only [newPodContainerDeletor]
  rw [hget]
  cases cands with
  | nil => exact absurd rfl hne
  | cons c cs => rfl

/-- Claim C9 witness: with one exited container, no filter, and
`containersToKeep = 0`, the freshly constructed deletor selects a candidate
and hits the nil runtime. -/
theorem c9_deletor_nil_runtime_witness :
    (newPodContainerDeletor { tag := "remote" } 0).runtime = none ∧
    (newPodContainerDeletor { tag := "remote" } 0).containersToKeep = 0 ∧
    deleteContainersInPod (newPodContainerDeletor { tag := "remote" } 0)
        "" onePod false = .error DeleteError.nilRuntimeDereference := by
  obtain ⟨h1, h2, h3⟩ :=
    c9_deletor_nil_runtime { tag := "remote" } 0 "" onePod false [exitedC]
  exact ⟨h1, h2, h3 (by decide) (by decide)⟩

/-- Claim C10: for every reflector whose bounds slice has at least two
elements (as every reachable state does) and every delivered reset signal
that is not a `[]int64` of length at least two — a nil value, a value of
another type, or a shorter slice, all of which the comma-ok assertion turns
into a slice of length below two — `setBounds` panics (index out of range)
instead of rejecting or dropping the malformed payload. -/
theorem c10_setbounds_malformed_panics (r : ReflectorState) (s : ResetSignal)
    (hr : 2 ≤ r.bounds.length) (hs : (signalAssert s).length < 2) :
    setBounds r s = .error "runtime error: index out of range" := by
  unfold setBounds
  rw [if_pos (Or.inr hs)]

/-- Claim C10 witness: a nil payload delivered to a fresh reflector panics. -/
theorem c10_setbounds_malformed_panics_witness :
    setBounds (NewNamedReflector "w2" none 0) ResetSignal.nilSignal
      = .error "runtime error: index out of range" :=
  c10_setbounds_malformed_panics (NewNamedReflector "w2" none 0)
    ResetSignal.nilSignal (by decide) (by decide)
